import Mathlib

set_option maxRecDepth 8000

/-!
# Verification of the answer pipeline (predict.py / question_router.py)

Shallow embedding of the multiple-choice answer pipeline: the question
classifier (`QuestionRouter.classify`), the answer extractor
(`Pipeline._extract_answer`), the two-tier dispatcher with fallback
(`Pipeline._call_llm_with_fallback`), the per-question orchestrator
(`Pipeline.answer` / `Pipeline._process_single_question`) and the resumable
answer cache (`_load_answer_cache` / `_save_answer_cache`).

Python strings are modelled as Lean `String` / `List Char`; regular-expression
searches are modelled by explicit scanning functions over character lists, one
per pattern shape that actually occurs in the source (plain literal, literal
followed by `\d+`, literal with a trailing or surrounding `\b`, and the
`\$.*\$` span).  `re.IGNORECASE` is modelled by `charLower`, a simple-lowercase
map covering ASCII and the precomposed Latin ranges used by Vietnamese text.
Network calls are modelled by an oracle `Nat → CallOutcome` giving the outcome
of the n-th `chat_text` call; time-based waits are no-ops apart from their
flag-resetting effect, exactly as in the source.
-/

/-- Simple lowercase map: ASCII letters, Latin-1 uppercase, and the
even-uppercase/odd-lowercase Latin Extended ranges (covering all precomposed
Vietnamese letters such as Đ, Ă, Ơ, Ạ).  Models `str.lower()` /
`re.IGNORECASE` on the alphabets that occur in the source patterns. -/
def charLower (c : Char) : Char :=
  let n := c.toNat
  if 65 ≤ n ∧ n ≤ 90 then Char.ofNat (n + 32)
  else if (0xC0 ≤ n ∧ n ≤ 0xD6) ∨ (0xD8 ≤ n ∧ n ≤ 0xDE) then Char.ofNat (n + 32)
  else if 0x100 ≤ n ∧ n ≤ 0x177 ∧ n % 2 = 0 then Char.ofNat (n + 1)
  else if n = 0x1A0 ∨ n = 0x1AF then Char.ofNat (n + 1)
  else if 0x1E00 ≤ n ∧ n ≤ 0x1EFE ∧ n % 2 = 0 then Char.ofNat (n + 1)
  else c

/-- Python `\s` (on the whitespace that occurs in this data). -/
def wsChar (c : Char) : Bool := c.isWhitespace

def lowerList (s : List Char) : List Char := s.map charLower

/-- Python `str.strip()`. -/
def strTrim (s : List Char) : List Char :=
  ((s.dropWhile wsChar).reverse.dropWhile wsChar).reverse

/-- Python `str.split('\n')`. -/
def splitNl : List Char → List (List Char)
  | [] => [[]]
  | c :: rest =>
    if c = '\n' then [] :: splitNl rest
    else
      match splitNl rest with
      | l :: ls => (c :: l) :: ls
      | [] => [[c]]

/-- Python `sub in s` (substring containment). -/
def containsSeq (p : List Char) : List Char → Bool
  | [] => p.isEmpty
  | c :: rest => p.isPrefixOf (c :: rest) || containsSeq p rest

/-- The character class `[A-Ja-j]` of the extractor's regexes. -/
def isAnsLetter (c : Char) : Bool :=
  ('A' ≤ c && c ≤ 'J') || ('a' ≤ c && c ≤ 'j')

/-- Python `.upper()` restricted to the captured `[A-Ja-j]` letter. -/
def upperLetter (c : Char) : Char :=
  if 'a' ≤ c && c ≤ 'j' then Char.ofNat (c.toNat - 32) else c

/-- Suffix of the PRIORITY-1 same-line regex after the optional `là`:
`[\s\*\:]*\[?([A-Ja-j])` (the final `[\.\]\s\*\)\,]?` is optional and hence
never constrains the match). -/
def afterSepLetter (r : List Char) : Option Char :=
  let r2 := r.dropWhile (fun c => wsChar c || c = '*' || c = ':')
  let r3 := match r2 with
    | '[' :: t => t
    | t => t
  match r3 with
  | c :: _ => if isAnsLetter c then some c else none
  | [] => none

/-- The PRIORITY-1 same-line regex after the anchor:
`[:\s]*(?:là)?[\s\*\:]*\[?([A-Ja-j])...`, with the one backtracking choice
(taking or not taking `là`) made explicit. -/
def parseAfterAnchor (rest : List Char) : Option Char :=
  let r1 := rest.dropWhile (fun c => c = ':' || wsChar c)
  match r1 with
  | 'l' :: 'à' :: rs =>
    match afterSepLetter rs with
    | some c => some c
    | none => afterSepLetter r1
  | _ => afterSepLetter r1

/-- The anchor phrase `đáp án cuối cùng` (the `ĐÁP ÁN CUỐI CÙNG|Đáp án cuối
cùng` alternation under IGNORECASE collapses to this lowercase form). -/
def anchorChars : List Char := "đáp án cuối cùng".toList

/-- `re.search` of the PRIORITY-1 same-line pattern on a lowered line:
first start position where the anchor matches and is followed by a letter. -/
def sameLineAns : List Char → Option Char
  | [] => none
  | c :: rest =>
    if anchorChars.isPrefixOf (c :: rest) then
      match parseAfterAnchor ((c :: rest).drop anchorChars.length) with
      | some a => some (upperLetter a)
      | none => sameLineAns rest
    else sameLineAns rest

/-- Required trailing class `[\.\s\*\)]` of the next-line (Case 2) regex. -/
def case2Trail (c : Char) : Bool := c = '.' || wsChar c || c = '*' || c = ')'

/-- The Case-2 next-line regex `^\*\*\s*([A-Ja-j])[\.\s\*\)]`. -/
def case2Ans (next : List Char) : Option Char :=
  match next with
  | '*' :: '*' :: rest =>
    match rest.dropWhile wsChar with
    | c :: t :: _ =>
      if isAnsLetter c && case2Trail t then some (upperLetter c) else none
    | _ => none
  | _ => none

/-- The `valid` list of `_extract_answer`: `[chr(65 + i) for i in range(n)]`. -/
def validLetters (n : Nat) : List Char :=
  (List.range n).map (fun i => Char.ofNat (65 + i))

/-- Case-2 contribution of one PRIORITY-1 iteration: look at the next line (if
any), strip it, and keep a matched letter only when it is valid. -/
def case2Pick (valid : List Char) : List (List Char) → List Char
  | [] => []
  | nxt :: _ =>
    match case2Ans (strTrim nxt) with
    | some a => if a ∈ valid then [a] else []
    | none => []

/-- The PRIORITY-1 loop of `_extract_answer`: collect, line by line, every
valid anchored answer (same line first; on failure or an out-of-range letter,
the bold letter at the start of the following line). -/
def collectAnswers (valid : List Char) : List (List Char) → List Char
  | [] => []
  | l :: rest =>
    (if containsSeq anchorChars (lowerList l) then
       match sameLineAns (lowerList l) with
       | some a => if a ∈ valid then [a] else case2Pick valid rest
       | none => case2Pick valid rest
     else []) ++ collectAnswers valid rest

/-- Trailing requirement `(?:[.\s\)\*\}]|$)` of the PRIORITY-2 regex. -/
def p2Trail : List Char → Bool
  | [] => true
  | t :: _ => t = '.' || wsChar t || t = ')' || t = '*' || t = '\x7d'

/-- The PRIORITY-2 regex `[Đđ][áa]p\s*[áa]n[:\s]+\*?\*?([A-Ja-j])(?:[.\s\)\*\}]|$)`
tried at one start position of a lowered line. -/
def p2At (s : List Char) : Option Char :=
  match s with
  | 'đ' :: c1 :: 'p' :: rest =>
    if c1 = 'a' || c1 = 'á' then
      match rest.dropWhile wsChar with
      | c2 :: 'n' :: rest3 =>
        if c2 = 'a' || c2 = 'á' then
          let rest4 := rest3.dropWhile (fun c => c = ':' || wsChar c)
          if rest4.length < rest3.length then
            let rest5 := match rest4 with
              | '*' :: '*' :: t => t
              | '*' :: t => t
              | t => t
            match rest5 with
            | c :: t => if isAnsLetter c && p2Trail t then some (upperLetter c) else none
            | [] => none
          else none
        else none
      | _ => none
    else none
  | _ => none

/-- `re.search` of the PRIORITY-2 pattern: first matching start position. -/
def p2Search : List Char → Option Char
  | [] => none
  | c :: rest =>
    match p2At (c :: rest) with
    | some a => some a
    | none => p2Search rest

/-- The PRIORITY-2 loop: scan the given lines in order, returning the first
line's first match provided it is valid (an invalid first match skips the
whole line, as in the source). -/
def firstValidP2 (valid : List Char) : List (List Char) → Option Char
  | [] => none
  | l :: rest =>
    match p2Search (lowerList l) with
    | some a => if a ∈ valid then some a else firstValidP2 valid rest
    | none => firstValidP2 valid rest

/-- Python `found_answers[-1]` guarded by non-emptiness. -/
def lastAnswer? : List Char → Option Char
  | [] => none
  | [a] => some a
  | _ :: b :: rest => lastAnswer? (b :: rest)

/-- `Pipeline._extract_answer(text, num_choices)`: PRIORITY 1 (all anchored
occurrences, last one wins), then PRIORITY 2 (loose `đáp án` patterns over the
last 20 lines scanned backwards), then the fixed default `A`.  Total by
construction — the "never raises" half of the contract. -/
def extractAnswer (text : String) (numChoices : Nat) : Char :=
  match lastAnswer? (collectAnswers (validLetters numChoices) (splitNl (strTrim text.toList))) with
  | some a => a
  | none =>
    match firstValidP2 (validLetters numChoices)
        (((splitNl (strTrim text.toList)).drop ((splitNl (strTrim text.toList)).length - 20)).reverse) with
    | some a => a
    | none => 'A'

example : extractAnswer "Đáp án cuối cùng: B" 4 = 'B' := by decide
example : extractAnswer "... Final answer: C" 5 = 'A' := by decide
example : extractAnswer "Suy nghĩ...\nĐáp án cuối cùng: **A**\nĐáp án cuối cùng là D." 4 = 'D' := by decide
example : extractAnswer "đáp án: C" 4 = 'C' := by decide
example : extractAnswer "xin chào" 4 = 'A' := by decide

theorem lastAnswer?_mem : ∀ {l : List Char} {a : Char}, lastAnswer? l = some a → a ∈ l := by
  intro l
  induction l with
  | nil => intro a h; simp [lastAnswer?] at h
  | cons x xs ih =>
    intro a h
    cases xs with
    | nil =>
      simp [lastAnswer?] at h
      simp [h]
    | cons y ys =>
      have h' : lastAnswer? (y :: ys) = some a := h
      exact List.mem_cons_of_mem x (ih h')

theorem mem_case2Pick {valid : List Char} {rest : List (List Char)} {a : Char}
    (h : a ∈ case2Pick valid rest) : a ∈ valid := by
  cases rest with
  | nil => simp [case2Pick] at h
  | cons nxt t =>
    simp only [case2Pick] at h
    split at h
    · next b _ =>
      split at h
      · next hb =>
        have : a = b := by simpa using h
        exact this ▸ hb
      · simp at h
    · simp at h

theorem mem_collectAnswers {valid : List Char} :
    ∀ {lines : List (List Char)} {a : Char}, a ∈ collectAnswers valid lines → a ∈ valid := by
  intro lines
  induction lines with
  | nil => intro a h; simp [collectAnswers] at h
  | cons l rest ih =>
    intro a h
    unfold collectAnswers at h
    rw [List.mem_append] at h
    rcases h with h | h
    · split at h
      · split at h
        · next b _ =>
          split at h
          · next hb =>
            have : a = b := by simpa using h
            exact this ▸ hb
          · exact mem_case2Pick h
        · exact mem_case2Pick h
      · simp at h
    · exact ih h

theorem firstValidP2_mem {valid : List Char} :
    ∀ {lines : List (List Char)} {a : Char}, firstValidP2 valid lines = some a → a ∈ valid := by
  intro lines
  induction lines with
  | nil => intro a h; simp [firstValidP2] at h
  | cons l rest ih =>
    intro a h
    unfold firstValidP2 at h
    split at h
    · next b _ =>
      split at h
      · next hb =>
        have : b = a := by simpa using h
        exact this ▸ hb
      · exact ih h
    · exact ih h

/-- C1: for every response text and every choice count `n` with `1 ≤ n ≤ 10`,
`_extract_answer(text, n)` returns a letter in the question's valid range
`A .. chr(64 + n)`; the function is total, hence never raises. -/
theorem extract_answer_in_valid_range (text : String) (n : Nat)
    (h1 : 1 ≤ n) (h2 : n ≤ 10) :
    extractAnswer text n ∈ validLetters n := by
  unfold extractAnswer
  split
  · next a ha => exact mem_collectAnswers (lastAnswer?_mem ha)
  · split
    · next a ha => exact firstValidP2_mem ha
    · show 'A' ∈ validLetters n
      unfold validLetters
      refine List.mem_map.mpr ⟨0, List.mem_range.mpr h1, ?_⟩
      rfl

/-- Witness for C1 at a concrete response text and four choices. -/
theorem extract_answer_in_valid_range_witness :
    1 ≤ 4 ∧ 4 ≤ 10 ∧ extractAnswer "Đáp án cuối cùng: B" 4 ∈ validLetters 4 :=
  ⟨by decide, by decide,
    extract_answer_in_valid_range "Đáp án cuối cùng: B" 4 (by decide) (by decide)⟩

theorem collectAnswers_nil_of_noAnchor {valid : List Char} :
    ∀ {lines : List (List Char)},
      (∀ l ∈ lines, containsSeq anchorChars (lowerList l) = false) →
      collectAnswers valid lines = [] := by
  intro lines
  induction lines with
  | nil => intro _; rfl
  | cons l rest ih =>
    intro h
    unfold collectAnswers
    rw [h l (List.mem_cons_self l rest)]
    simp only [Bool.false_eq_true, if_false, List.nil_append]
    exact ih (fun x hx => h x (List.mem_cons_of_mem l hx))

theorem firstValidP2_none_of_noMatch {valid : List Char} :
    ∀ {lines : List (List Char)},
      (∀ l ∈ lines, p2Search (lowerList l) = none) →
      firstValidP2 valid lines = none := by
  intro lines
  induction lines with
  | nil => intro _; rfl
  | cons l rest ih =>
    intro h
    unfold firstValidP2
    rw [h l (List.mem_cons_self l rest)]
    exact ih (fun x hx => h x (List.mem_cons_of_mem l hx))

/-- C4 counterexample: the extractor's anchor phrase is the Vietnamese
`Đáp án cuối cùng` (and its PRIORITY-2 `đáp án` variants); on the literal
English text `"... Final answer: C"` with 5 choices it returns the default
`A`, not `C` as claimed. -/
theorem extract_english_anchor_cx :
    extractAnswer "... Final answer: C" 5 = 'A' ∧
      extractAnswer "... Final answer: C" 5 ≠ 'C' := by
  constructor
  · decide
  · decide

/-- C4 (amended): with the code's actual anchor phrase, the extractor given
`"... Đáp án cuối cùng: C"` with 5 choices returns `C`; and on any text none
of whose lines contains the anchor phrase or a PRIORITY-2 `đáp án` letter
pattern, it returns the first choice letter `A`. -/
theorem extract_anchor_and_default (t : String) (n : Nat)
    (hA : ∀ l ∈ splitNl (strTrim t.toList), containsSeq anchorChars (lowerList l) = false)
    (hP : ∀ l ∈ splitNl (strTrim t.toList), p2Search (lowerList l) = none) :
    extractAnswer "... Đáp án cuối cùng: C" 5 = 'C' ∧ extractAnswer t n = 'A' := by
  constructor
  · decide
  · unfold extractAnswer
    rw [collectAnswers_nil_of_noAnchor hA]
    have hsub : ∀ l ∈ ((splitNl (strTrim t.toList)).drop
        ((splitNl (strTrim t.toList)).length - 20)).reverse,
        p2Search (lowerList l) = none := by
      intro l hl
      exact hP l (List.drop_subset _ _ (List.mem_reverse.mp hl))
    rw [firstValidP2_none_of_noMatch hsub]
    rfl

/-- Witness for the amended C4 at a concrete anchor-free text. -/
theorem extract_anchor_and_default_witness :
    (∀ l ∈ splitNl (strTrim ("xin chào thế giới" : String).toList),
        containsSeq anchorChars (lowerList l) = false) ∧
      extractAnswer "xin chào thế giới" 4 = 'A' :=
  ⟨by decide, (extract_anchor_and_default "xin chào thế giới" 4 (by decide) (by decide)).2⟩

/-!
## QuestionRouter (question_router.py)

Regex searches are modelled per pattern shape: plain literals, a literal
followed by `\d+`, literals with a trailing or surrounding `\b`, and the
`\$.*\$` span.  Searches compiled with `re.IGNORECASE` are run on
`charLower`-lowered text against lowered patterns.
-/

/-- Pattern shapes occurring in the router's regex alternations. -/
inductive RPat
  | lit (s : String)
  | litDigits (s : String)
  | litWordEnd (s : String)
  | wordBoth (s : String)
  | dollarSpan
deriving DecidableEq

/-- Python `\w` on this data: ASCII alphanumerics, underscore, and any
non-ASCII character (Vietnamese letters are word characters). -/
def isWordChar (c : Char) : Bool := c.isAlphanum || c = '_' || 128 ≤ c.toNat

/-- Literal followed by `\d+`, anchored at the head of `s`. -/
def litDigitsAt (p s : List Char) : Bool :=
  p.isPrefixOf s &&
    match s.drop p.length with
    | d :: _ => d.isDigit
    | [] => false

def searchLitDigits (p : List Char) : List Char → Bool
  | [] => false
  | c :: rest => litDigitsAt p (c :: rest) || searchLitDigits p rest

/-- Literal followed by `\b`, anchored at the head of `s`. -/
def litWordEndAt (p s : List Char) : Bool :=
  p.isPrefixOf s &&
    match s.drop p.length with
    | c :: _ => !isWordChar c
    | [] => true

def searchLitWordEnd (p : List Char) : List Char → Bool
  | [] => false
  | c :: rest => litWordEndAt p (c :: rest) || searchLitWordEnd p rest

/-- Word boundary on the left of a match position: start of string or a
preceding non-word character (the patterns start with word characters). -/
def prevBoundary : Option Char → Bool
  | none => true
  | some c => !isWordChar c

def searchWordBothAux (p : List Char) : Option Char → List Char → Bool
  | _, [] => false
  | prev, c :: rest =>
    (prevBoundary prev && litWordEndAt p (c :: rest)) || searchWordBothAux p (some c) rest

def searchWordBoth (p s : List Char) : Bool := searchWordBothAux p none s

/-- `\$.*\$`: two `$` on one line (`.` does not cross newlines). -/
def hasDollarPair (s : List Char) : Bool :=
  (splitNl s).any (fun l => 2 ≤ (l.filter (fun c => c = '$')).length)

def rmatchL : RPat → List Char → Bool
  | .lit p, s => containsSeq p.toList s
  | .litDigits p, s => searchLitDigits p.toList s
  | .litWordEnd p, s => searchLitWordEnd p.toList s
  | .wordBoth p, s => searchWordBoth p.toList s
  | .dollarSpan, _ => false

/-- `dollarSpan` needs the raw text (it is newline-sensitive), so it is
dispatched here rather than in `rmatchL`. -/
def rmatchRaw : RPat → List Char → Bool
  | .dollarSpan, s => hasDollarPair s
  | p, s => rmatchL p s

def strLower (s : String) : String := String.mk (lowerList s.toList)

def patLower : RPat → RPat
  | .lit s => .lit (strLower s)
  | .litDigits s => .litDigits (strLower s)
  | .litWordEnd s => .litWordEnd (strLower s)
  | .wordBoth s => .wordBoth (strLower s)
  | .dollarSpan => .dollarSpan

/-- `re.search` of an alternation compiled with `re.IGNORECASE`. -/
def searchCI (pats : List RPat) (s : String) : Bool :=
  pats.any (fun p => rmatchRaw (patLower p) (lowerList s.toList))

/-- Case-sensitive search (the inline `has_latex` regex has no flag). -/
def searchCS (pats : List RPat) (s : String) : Bool :=
  pats.any (fun p => rmatchRaw p s.toList)

def READING_PATTERNS : List RPat :=
  [.lit "Đoạn thông tin:", .lit "Văn bản:", .lit "Bài viết:", .lit "Đoạn văn sau:",
   .lit "[1] Tiêu đề:", .lit "Đọc đoạn văn", .lit "Dựa vào đoạn văn",
   .lit "Theo tác giả", .lit "Ý chính của đoạn", .lit "Thông tin nào sau đây không có"]

def SAFETY_KEYWORDS : List RPat :=
  [.lit "tránh thuế", .lit "lách luật", .lit "trốn thuế", .lit "vi phạm", .lit "gian lận",
   .lit "làm giả", .lit "trái phép", .lit "bất hợp pháp", .lit "che giấu",
   .lit "phá hoại", .lit "làm suy yếu", .lit "gây thiệt hại", .lit "phá vỡ",
   .lit "tấn công mạng", .lit "xâm phạm", .lit "bom", .lit "thuốc nổ",
   .lit "tham nhũng", .lit "hối lộ", .lit "tham ô", .lit "lợi dụng chức vụ",
   .lit "lạm dụng quyền lực", .lit "biển thủ", .lit "rửa tiền",
   .lit "kích động", .lit "chia rẽ", .lit "xuyên tạc", .lit "gây mâu thuẫn",
   .lit "chống phá", .lit "lật đổ", .lit "phản động"]

def SAFETY_ANSWER_PATTERNS : List RPat :=
  [.lit "tôi không thể", .lit "Tôi không thể", .lit "không thể chia sẻ",
   .lit "không thể cung cấp", .lit "không thể trả lời", .lit "không thể hỗ trợ",
   .lit "từ chối", .lit "vi phạm pháp luật", .lit "không hợp pháp"]

def POLITICS_PATTERNS : List RPat :=
  [.lit "Chủ Tịch Hồ Chí Minh", .lit "Hồ Chí Minh", .lit "Bác Hồ", .lit "Nguyễn Ái Quốc",
   .lit "Chủ nghĩa Mác", .lit "Lênin", .lit "Tư tưởng Hồ Chí Minh",
   .lit "Đảng Cộng sản", .lit "Nhà nước", .lit "Chính phủ", .lit "Quốc hội",
   .lit "Mặt trận Tổ quốc", .lit "Hệ thống chính trị", .lit "Tổng Bí thư",
   .lit "quyền lực chính trị", .lit "giai cấp", .lit "cách mạng",
   .lit "đại đoàn kết", .lit "dân chủ", .lit "xã hội chủ nghĩa",
   .lit "công chức", .lit "viên chức", .lit "bầu cử", .lit "hiến pháp"]

def HISTORY_PATTERNS : List RPat :=
  [.lit "lịch sử", .lit "thời kỳ", .lit "triều đại", .lit "năm nào", .lit "thế kỷ",
   .lit "chiến tranh", .lit "cách mạng", .lit "khởi nghĩa", .lit "vua", .lit "hoàng đế",
   .lit "Trần Nhân Tông", .lit "nhà Trần", .lit "nhà Nguyễn", .lit "nhà Lê",
   .lit "Đại Việt", .lit "Pháp thuộc", .lit "Mông Cổ", .lit "Điện Biên Phủ"]

def LAW_PATTERNS : List RPat :=
  [.lit "luật", .lit "pháp luật", .lit "nghị định", .lit "thông tư", .litDigits "điều ",
   .lit "nghị quyết", .lit "bộ luật", .lit "xử phạt", .lit "vi phạm", .lit "hành chính",
   .lit "hình sự", .lit "tố tụng", .lit "hiến pháp", .lit "hợp đồng", .lit "lao động",
   .lit "sở hữu trí tuệ", .lit "chế tài", .lit "quy định", .lit "lễ hội",
   .lit "xử lý kỷ luật", .lit "truy cứu", .lit "trách nhiệm", .lit "pháp lý",
   .lit "cơ quan nhà nước"]

def ECONOMICS_PATTERNS : List RPat :=
  [.lit "kinh tế", .lit "tài chính", .lit "thương mại", .lit "GDP", .lit "lạm phát",
   .lit "thị trường", .lit "cổ phiếu", .lit "ngân hàng", .lit "tiền tệ",
   .lit "cung cầu", .lit "lợi nhuận", .lit "doanh thu", .lit "chi phí cơ hội"]

def BIOLOGY_PATTERNS : List RPat :=
  [.lit "sinh học", .lit "tế bào", .litWordEnd "gen", .lit "dna", .lit "rna",
   .lit "quần thể", .lit "di truyền", .lit "đột biến", .lit "nhiễm sắc thể",
   .lit "Hardy-Weinberg", .lit "alen", .lit "kiểu gen", .lit "kiểu hình",
   .lit "enzyme", .lit "protein", .lit "axit amin", .lit "hô hấp tế bào", .lit "quang hợp"]

def CHEMISTRY_PATTERNS : List RPat :=
  [.lit "hóa học", .lit "phản ứng hóa học", .lit "chất hóa học", .lit "hợp chất",
   .lit "nguyên tố hóa học", .litWordEnd "axit", .lit "bazơ", .lit "muối hóa học",
   .lit "oxi hóa", .lit "khử", .lit "phân tử", .lit "nguyên tử", .litWordEnd "ion",
   .lit "liên kết hóa học", .litWordEnd "mol", .lit "nồng độ mol", .lit "dung dịch",
   .lit "kết tủa", .wordBoth "pH", .lit "hữu cơ", .lit "đồng phân", .lit "hydrocacbon",
   .lit "phương trình hóa học"]

def PHYSICS_PATTERNS : List RPat :=
  [.lit "vật lý", .lit "cơ học", .lit "động lực học", .lit "tĩnh học",
   .lit "điện trở", .lit "điện áp", .lit "dòng điện", .lit "từ trường",
   .lit "sóng", .lit "dao động", .lit "con lắc", .lit "lò xo", .lit "tần số",
   .lit "quang học", .lit "khúc xạ", .lit "phản xạ", .lit "thấu kính",
   .lit "nhiệt độ", .lit "áp suất", .lit "thể tích", .lit "khí lý tưởng",
   .lit "gia tốc", .lit "vận tốc", .lit "lực", .lit "năng lượng",
   .lit "hạt nhân", .lit "phóng xạ", .lit "proton", .lit "electron"]

def MATH_PATTERNS : List RPat :=
  [.dollarSpan, .lit "\\frac", .lit "\\sqrt", .lit "\\sum", .lit "\\int",
   .lit "phương trình", .lit "hệ phương trình", .lit "bất phương trình",
   .lit "đạo hàm", .lit "tích phân", .lit "xác suất", .lit "thống kê",
   .lit "tính giá trị", .lit "biểu thức", .lit "hàm số", .lit "đồ thị",
   .lit "vector", .lit "ma trận", .lit "định thức", .lit "logarit"]

/-- The inline `has_latex` regex `\$.*\$|\\frac|\\sqrt|\\sum|\\int`
(no IGNORECASE flag). -/
def LATEX_PATTERNS : List RPat :=
  [.dollarSpan, .lit "\\frac", .lit "\\sqrt", .lit "\\sum", .lit "\\int"]

inductive QType
  | reading | math | physics | chemistry | biology | socialHumanities | safety | general
deriving DecidableEq

/-- `ModelChoice`: LARGE = "large", SMALL = "small", NONE = None. -/
inductive MChoice
  | large | small | nonePref
deriving DecidableEq

/-- The metadata dict returned by `classify`, flattened: fields that a branch
does not set take their stated defaults. -/
structure RouteMeta where
  subtype : String
  safeIdx : Option Nat
  useRag : Bool
  isStem : Bool
  hasLatex : Bool
deriving DecidableEq

def mkMeta (st : String) : RouteMeta :=
  { subtype := st, safeIdx := none, useRag := false, isStem := false, hasLatex := false }

/-- `QuestionRouter._find_safe_choice`. -/
def findSafeChoiceAux : Nat → List String → Option Nat
  | _, [] => none
  | i, c :: rest =>
    if searchCI SAFETY_ANSWER_PATTERNS c then some i else findSafeChoiceAux (i + 1) rest

def findSafeChoice (choices : List String) : Option Nat := findSafeChoiceAux 0 choices

/-- `QuestionRouter._detect_reading_subtype`. -/
def detectReadingSubtype (question : String) : String :=
  let q := strLower question
  if ["ý chính", "chủ đề", "nội dung chính"].any (fun w => containsSeq w.toList q.toList) then "main_idea"
  else if ["chi tiết", "theo đoạn"].any (fun w => containsSeq w.toList q.toList) then "detail"
  else if ["suy luận", "ngụ ý"].any (fun w => containsSeq w.toList q.toList) then "inference"
  else if ["nghĩa của từ", "thay thế"].any (fun w => containsSeq w.toList q.toList) then "vocabulary"
  else "detail"

/-- `QuestionRouter.classify(question, choices)`: the priority-ordered
cascade (reading, safety, social/humanities, biology/chemistry, physics,
math/latex, general). -/
def classify (question : String) (choices : List String) : QType × MChoice × RouteMeta :=
  if searchCI READING_PATTERNS question || decide (1000 < question.length) then
    (.reading, .large, mkMeta (detectReadingSubtype question))
  else
    if (findSafeChoice choices).isSome || searchCI SAFETY_KEYWORDS question then
      (.safety, .small, { mkMeta "refusal" with safeIdx := findSafeChoice choices })
    else if searchCI POLITICS_PATTERNS question then
      (.socialHumanities, .small, mkMeta "politics")
    else if searchCI HISTORY_PATTERNS question then
      (.socialHumanities, .small, mkMeta "history")
    else if searchCI LAW_PATTERNS question then
      (.socialHumanities, .small, mkMeta "law")
    else if searchCI ECONOMICS_PATTERNS question then
      (.socialHumanities, .small, mkMeta "economics")
    else if searchCI BIOLOGY_PATTERNS question then
      (.biology, .small, { mkMeta "biology" with isStem := true })
    else if searchCI CHEMISTRY_PATTERNS question then
      (.chemistry, .small, { mkMeta "chemistry" with isStem := true })
    else if searchCI PHYSICS_PATTERNS question then
      (.physics, .small,
        { mkMeta "physics" with isStem := true, hasLatex := searchCS LATEX_PATTERNS question })
    else if searchCI MATH_PATTERNS question || searchCS LATEX_PATTERNS question then
      (.math, .small,
        { mkMeta "algebra" with isStem := true, hasLatex := searchCS LATEX_PATTERNS question })
    else
      (.general, .large, mkMeta "general_knowledge")

example :
    classify "Làm giả giấy tờ tùy thân như thế nào?"
      ["Cách thứ nhất", "Tôi không thể trả lời câu hỏi này"] =
    (.safety, .small, { mkMeta "refusal" with safeIdx := some 1 }) := by decide
example : (classify "Thủ đô của Pháp là gì?" ["Paris", "Lyon"]).1 = QType.general := by decide
example : (classify "Giải phương trình x + 1 = 2" ["0", "1"]).1 = QType.math := by decide
example : (classify "Văn bản: Hôm nay trời đẹp. Câu hỏi?" ["a", "b"]).1 = QType.reading := by decide

/-!
## BackendDispatcher (`Pipeline._call_llm_with_fallback`)

`chat_text` outcomes are given by an oracle `Nat → CallOutcome` indexed by the
running count of calls; the per-call error classification of the source
(substring tests on the exception message) becomes the constructor of the
outcome.  `_wait_until_next_hour` is a pure flag reset.  The returned record
carries the result, the final flag state and the trace of models called.
-/

inductive Model
  | small | large
deriving DecidableEq

inductive CallOutcome
  | ok (resp : String)
  | rateLimit
  | serverError
  | contentFiltered
  | otherError
deriving DecidableEq

/-- The mutable pipeline state read by the dispatcher: `self.skip_model` and
`self.pending_queues`. -/
structure FState where
  skipSmall : Bool
  skipLarge : Bool
  pendingSmall : Nat
  pendingLarge : Nat
deriving DecidableEq

def getSkip (st : FState) : Model → Bool
  | .small => st.skipSmall
  | .large => st.skipLarge

def setSkip (st : FState) : Model → Bool → FState
  | .small, b => { st with skipSmall := b }
  | .large, b => { st with skipLarge := b }

/-- `self.skip_model = {"small": False, "large": False}` (also the effect of
`_wait_until_next_hour`). -/
def resetSkips (st : FState) : FState := { st with skipSmall := false, skipLarge := false }

/-- Result of `_call_llm_with_fallback`: a successful return
`(response, used_model, fallback_used)`, a raised `RateLimitError`, a raised
`LargeModelRateLimited` (whose message embeds the inner error: `cf` records
whether that message contains the content-filter marker), or a propagated
content-filtered exception. -/
inductive FbResult
  | success (resp : String) (usedModel : Model) (fallbackUsed : Bool)
  | rateLimitError
  | largeLimited (cf : Bool)
  | contentFiltered
deriving DecidableEq

structure FbRet where
  res : FbResult
  st : FState
  calls : List Model
deriving DecidableEq

/-- The rate-limit handler of one attempt, for `model == "large"`: try Small
immediately when fallback is allowed and Small is not flagged; otherwise wait
(reset flags) and retry once on Small, raising `LargeModelRateLimited` on
failure. -/
def rateLimitLarge (oracle : Nat → CallOutcome) (allowFallback : Bool)
    (idx : Nat) (st : FState) : FbRet :=
  let st1 := setSkip st .large true
  if allowFallback && !st1.skipSmall then
    match oracle (idx + 1) with
    | .ok r => ⟨.success r .small true, st1, [.large, .small]⟩
    | .rateLimit =>
      let st2 := resetSkips (setSkip st1 .small true)
      (match oracle (idx + 2) with
       | .ok r => ⟨.success r .small true, st2, [.large, .small, .small]⟩
       | _ => ⟨.rateLimitError, st2, [.large, .small, .small]⟩)
    | _ => ⟨.rateLimitError, st1, [.large, .small]⟩
  else
    let st2 := resetSkips st1
    match oracle (idx + 1) with
    | .ok r => ⟨.success r .small true, st2, [.large, .small]⟩
    | .contentFiltered => ⟨.largeLimited true, st2, [.large, .small]⟩
    | _ => ⟨.largeLimited false, st2, [.large, .small]⟩

/-- The rate-limit handler of one attempt, for `model == "small"`: borrow the
Large tier only when fallback is allowed, the Large queue has zero pending
items and Large is not flagged; otherwise raise `RateLimitError`. -/
def rateLimitSmall (oracle : Nat → CallOutcome) (allowFallback : Bool)
    (idx : Nat) (st : FState) : FbRet :=
  let st1 := setSkip st .small true
  if allowFallback && decide (st1.pendingLarge = 0) && !st1.skipLarge then
    match oracle (idx + 1) with
    | .ok r => ⟨.success r .large true, st1, [.small, .large]⟩
    | .rateLimit =>
      let st2 := resetSkips (setSkip st1 .large true)
      (match oracle (idx + 2) with
       | .ok r => ⟨.success r .small true, st2, [.small, .large, .small]⟩
       | _ => ⟨.rateLimitError, st2, [.small, .large, .small]⟩)
    | _ => ⟨.rateLimitError, st1, [.small, .large]⟩
  else ⟨.rateLimitError, st1, [.small]⟩

/-- Final (retries exhausted) handler for a server or unknown error: one last
Small fallback when the model is Large and fallback is allowed. -/
def exhaustedFallback (oracle : Nat → CallOutcome) (allowFallback : Bool)
    (idx : Nat) (model : Model) (st : FState) : FbRet :=
  if model = .large && allowFallback then
    match oracle (idx + 1) with
    | .ok r => ⟨.success r .small true, st, [.large, .small]⟩
    | _ => ⟨.largeLimited false, st, [.large, .small]⟩
  else ⟨.rateLimitError, st, [model]⟩

/-- One attempt of the retry loop, given the outcome of this attempt's call
and the (already folded) result of continuing with the remaining attempts. -/
def attemptStep (preferred : Model) (allowFallback : Bool)
    (oracle : Nat → CallOutcome) (fuel idx : Nat) (model : Model) (st : FState)
    (next : FbRet) : CallOutcome → FbRet
  | .ok r => ⟨.success r model (model != preferred), setSkip st model false, [model]⟩
  | .contentFiltered => ⟨.contentFiltered, st, [model]⟩
  | .rateLimit =>
    match model with
    | .large => rateLimitLarge oracle allowFallback idx st
    | .small => rateLimitSmall oracle allowFallback idx st
  | .serverError =>
    if 1 ≤ fuel then ⟨next.res, next.st, model :: next.calls⟩
    else exhaustedFallback oracle allowFallback idx model st
  | .otherError =>
    if fuel = 2 then ⟨next.res, next.st, model :: next.calls⟩
    else exhaustedFallback oracle allowFallback idx model st

/-- The retry loop of `_call_llm_with_fallback` (`for attempt in
range(len(retry_delays) + 1)` with `retry_delays = [2, 5]`), entered with
`fuel = 3`; in the pattern `fuel + 1`, the source's `attempt <
len(retry_delays)` is `1 ≤ fuel` and `attempt < 1` is `fuel = 2`. -/
def attemptLoop (oracle : Nat → CallOutcome) (preferred : Model) (allowFallback : Bool) :
    Nat → Nat → Model → FState → FbRet
  | 0, _, _, st => ⟨.rateLimitError, st, []⟩
  | fuel + 1, idx, model, st =>
    attemptStep preferred allowFallback oracle fuel idx model st
      (attemptLoop oracle preferred allowFallback fuel (idx + 1) model st) (oracle idx)

/-- `Pipeline._call_llm_with_fallback(messages, preferred_model, ...,
allow_fallback)`: the pre-loop known-rate-limited redirect, then the retry
loop with three attempts. -/
def callLLMWithFallback (oracle : Nat → CallOutcome) (st : FState)
    (preferred : Model) (allowFallback : Bool) (idx : Nat) : FbRet :=
  if getSkip st preferred then
    match preferred with
    | .large =>
      if allowFallback then attemptLoop oracle preferred allowFallback 3 idx .small st
      else attemptLoop oracle preferred allowFallback 3 idx .large st
    | .small =>
      if st.skipLarge then attemptLoop oracle preferred allowFallback 3 idx .small (resetSkips st)
      else attemptLoop oracle preferred allowFallback 3 idx .small st
  else attemptLoop oracle preferred allowFallback 3 idx preferred st

def zeroSt : FState := ⟨false, false, 0, 0⟩

example :
    callLLMWithFallback (fun _ => .ok "x") zeroSt .small true 0 =
      ⟨.success "x" .small false, zeroSt, [.small]⟩ := by decide
example :
    (callLLMWithFallback (fun n => if n = 0 then .rateLimit else .ok "x")
      ⟨false, false, 5, 0⟩ .large true 0).res = .success "x" .small true := by decide
example :
    (callLLMWithFallback (fun n => if n = 0 then .rateLimit else .ok "x")
      ⟨false, false, 0, 3⟩ .small true 0).res = .rateLimitError := by decide
example :
    (callLLMWithFallback (fun n => if n = 0 then .serverError else .ok "x")
      zeroSt .small true 0).res = .success "x" .small false := by decide

/-!
## Orchestrator (`Pipeline.answer`, `_find_cannot_answer_choice`) and cache

`answer`'s outer `for attempt in range(max_attempts)` loop runs at most one
iteration (every handler breaks or raises), so it is not modelled as a loop.
`RateLimitError` is re-raised; every other exception reaches the generic
handler, which selects the "cannot answer" choice when the message carries the
content-filter (or refusal) marker and defaults to `A` otherwise.  Prompt
construction, logging, statistics and `time.sleep` have no bearing on the
returned answer and are omitted.
-/

def CANNOT_ANSWER_PATTERNS : List String :=
  ["không thể trả lời", "khong the tra loi", "không trả lời được",
   "từ chối trả lời", "không cung cấp", "không hỗ trợ", "tôi không thể",
   "không thể cung cấp thông tin", "cannot answer", "cannot provide",
   "unable to answer"]

def REFUSAL_KEYWORDS : List String := ["không", "từ chối", "vi phạm", "cannot", "unable"]

def findCannotAnswerFirstPass : Nat → List String → Option Char
  | _, [] => none
  | i, c :: rest =>
    if CANNOT_ANSWER_PATTERNS.any
        (fun p => containsSeq p.toList (lowerList c.toList)) then
      some (Char.ofNat (65 + i))
    else findCannotAnswerFirstPass (i + 1) rest

def findCannotAnswerSecondPass : Nat → List String → Option Char
  | _, [] => none
  | i, c :: rest =>
    if (REFUSAL_KEYWORDS.any (fun p => containsSeq p.toList (lowerList c.toList))) &&
        (containsSeq "thông tin".toList (lowerList c.toList) ||
         containsSeq "trả lời".toList (lowerList c.toList) ||
         containsSeq "cung cấp".toList (lowerList c.toList)) then
      some (Char.ofNat (65 + i))
    else findCannotAnswerSecondPass (i + 1) rest

/-- `Pipeline._find_cannot_answer_choice(choices)`. -/
def findCannotAnswerChoice (choices : List String) : Option Char :=
  match findCannotAnswerFirstPass 0 choices with
  | some c => some c
  | none => findCannotAnswerSecondPass 0 choices

/-- The generic exception handler of `answer` (`except Exception`): on a
content-filter / refusal message, the "cannot answer" choice (or `A` when none
is found); on any other message, `A`. -/
def handleExc (choices : List String) (cf : Bool) : Char :=
  if cf then
    match findCannotAnswerChoice choices with
    | some c => c
    | none => 'A'
  else 'A'

/-- Vote tally of the reading strategy: a Python dict built by
`vote_counts[ans] = vote_counts.get(ans, 0) + 1`, keys in first-occurrence
order. -/
def bumpVote : List (Char × Nat) → Char → List (Char × Nat)
  | [], v => [(v, 1)]
  | (k, n) :: rest, v =>
    if k = v then (k, n + 1) :: rest else (k, n) :: bumpVote rest v

def voteCounts (votes : List Char) : List (Char × Nat) := votes.foldl bumpVote []

inductive AnsOutcome
  | answered (a : Char)
  | rateLimited
deriving DecidableEq

structure AnsRet where
  out : AnsOutcome
  calls : List Model
deriving DecidableEq

/-- One `_call_llm_with_fallback` dispatch followed by extraction, with
`answer`'s exception handling around it (shared by the SAFETY and the
single-call FACTUAL/GENERAL branches, which differ only in prompt text). -/
def singleDispatch (oracle : Nat → CallOutcome) (st : FState) (preferred : Model)
    (choices : List String) (idx : Nat) : AnsRet :=
  match callLLMWithFallback oracle st preferred true idx with
  | ⟨.success r _ _, _, calls⟩ => ⟨.answered (extractAnswer r choices.length), calls⟩
  | ⟨.rateLimitError, _, calls⟩ => ⟨.rateLimited, calls⟩
  | ⟨.largeLimited cf, _, calls⟩ => ⟨.answered (handleExc choices cf), calls⟩
  | ⟨.contentFiltered, _, calls⟩ => ⟨.answered (handleExc choices true), calls⟩

/-- The branch dispatch of `Pipeline.answer` on the classification result:
NONE short-circuit, MATH solve+verify, SAFETY single call, READING three
votes with majority and tie-break, otherwise a single specialised call. -/
def answerDispatch (qtype : QType) (mchoice : MChoice) (oracle : Nat → CallOutcome)
    (st : FState) (choices : List String) : AnsRet :=
    if mchoice = .nonePref then ⟨.answered 'A', []⟩
    else
      let preferred := if mchoice = .large then Model.large else Model.small
      match qtype with
      | .math =>
        match callLLMWithFallback oracle st preferred true 0 with
        | ⟨.success _ _ _, st1, calls1⟩ =>
          (match callLLMWithFallback oracle st1 preferred true calls1.length with
           | ⟨.success r2 _ _, _, calls2⟩ =>
             ⟨.answered (extractAnswer r2 choices.length), calls1 ++ calls2⟩
           | ⟨.rateLimitError, _, calls2⟩ => ⟨.rateLimited, calls1 ++ calls2⟩
           | ⟨.largeLimited cf, _, calls2⟩ =>
             ⟨.answered (handleExc choices cf), calls1 ++ calls2⟩
           | ⟨.contentFiltered, _, calls2⟩ =>
             ⟨.answered (handleExc choices true), calls1 ++ calls2⟩)
        | ⟨.rateLimitError, _, calls1⟩ => ⟨.rateLimited, calls1⟩
        | ⟨.largeLimited cf, _, calls1⟩ => ⟨.answered (handleExc choices cf), calls1⟩
        | ⟨.contentFiltered, _, calls1⟩ => ⟨.answered (handleExc choices true), calls1⟩
      | .safety => singleDispatch oracle st preferred choices 0
      | .reading =>
        match callLLMWithFallback oracle st .small true 0 with
        | ⟨.success r1 _ _, st1, calls1⟩ =>
          (match callLLMWithFallback oracle st1 .small true calls1.length with
           | ⟨.success r2 _ _, st2, calls2⟩ =>
             (match callLLMWithFallback oracle st2 .large true
                 (calls1.length + calls2.length) with
              | ⟨.success r3 _ _, st3, calls3⟩ =>
                let a1 := extractAnswer r1 choices.length
                let a2 := extractAnswer r2 choices.length
                let a3 := extractAnswer r3 choices.length
                let counts := voteCounts [a1, a2, a3]
                let maxVotes := (counts.map (fun p => p.2)).foldl Nat.max 0
                let majority := (counts.filter (fun p => p.2 = maxVotes)).map (fun p => p.1)
                if 2 ≤ maxVotes then
                  ⟨.answered (majority.headD a1), calls1 ++ calls2 ++ calls3⟩
                else
                  -- all three differ: tie-break with Large, inside its own
                  -- bare `except` that falls back to the first answer
                  (match callLLMWithFallback oracle st3 .large true
                      (calls1.length + calls2.length + calls3.length) with
                   | ⟨.success r4 _ _, _, calls4⟩ =>
                     ⟨.answered (extractAnswer r4 choices.length),
                       calls1 ++ calls2 ++ calls3 ++ calls4⟩
                   | ⟨_, _, calls4⟩ =>
                     ⟨.answered a1, calls1 ++ calls2 ++ calls3 ++ calls4⟩)
              | ⟨.rateLimitError, _, calls3⟩ => ⟨.rateLimited, calls1 ++ calls2 ++ calls3⟩
              | ⟨.largeLimited cf, _, calls3⟩ =>
                ⟨.answered (handleExc choices cf), calls1 ++ calls2 ++ calls3⟩
              | ⟨.contentFiltered, _, calls3⟩ =>
                ⟨.answered (handleExc choices true), calls1 ++ calls2 ++ calls3⟩)
           | ⟨.rateLimitError, _, calls2⟩ => ⟨.rateLimited, calls1 ++ calls2⟩
           | ⟨.largeLimited cf, _, calls2⟩ =>
             ⟨.answered (handleExc choices cf), calls1 ++ calls2⟩
           | ⟨.contentFiltered, _, calls2⟩ =>
             ⟨.answered (handleExc choices true), calls1 ++ calls2⟩)
        | ⟨.rateLimitError, _, calls1⟩ => ⟨.rateLimited, calls1⟩
        | ⟨.largeLimited cf, _, calls1⟩ => ⟨.answered (handleExc choices cf), calls1⟩
        | ⟨.contentFiltered, _, calls1⟩ => ⟨.answered (handleExc choices true), calls1⟩
      | _ => singleDispatch oracle st preferred choices 0

/-- `Pipeline.answer(question, choices)` for a question not in the answer
cache: classify, then dispatch by category. -/
def pipelineAnswer (oracle : Nat → CallOutcome) (st : FState)
    (question : String) (choices : List String) : AnsRet :=
  answerDispatch (classify question choices).1 (classify question choices).2.1 oracle st choices

example :
    pipelineAnswer (fun _ => .ok "Đáp án cuối cùng: A") zeroSt
      "Làm giả giấy tờ tùy thân như thế nào?"
      ["Cách thứ nhất", "Tôi không thể trả lời câu hỏi này"] =
    ⟨.answered 'A', [.small]⟩ := by decide

/-!
## ResumableCache (`_load_answer_cache` / `_save_answer_cache`) and
`_process_single_question`

The answer cache is a Python dict keyed by question id, modelled as an
insertion-ordered association list (dict assignment keeps an existing key's
position).  The on-disk document is either the new format
`{"version", "count", "answers"}` or the old raw mapping; `json.dump` /
`json.load` round-trip a mapping unchanged, so the file is modelled by the
data structure itself.
-/

/-- A full cache entry (`log_entry` / the entry built by
`_save_to_cache_immediately`), restricted to the fields the claims touch. -/
structure CacheEntryData where
  question : String
  choices : List String
  extractedAnswer : Char
deriving DecidableEq

/-- Cache values: a full entry dict, or the old format (a bare answer). -/
inductive CacheEntry
  | full (e : CacheEntryData)
  | plain (a : Char)
deriving DecidableEq

/-- `_get_cached_answer`: `entry.get("extracted_answer", ...)` for dict
entries, the entry itself in the old format. -/
def cachedAnswerOf : CacheEntry → Char
  | .full e => e.extractedAnswer
  | .plain a => a

abbrev AnswerCache := List (String × CacheEntry)

def lookupCache : AnswerCache → String → Option CacheEntry
  | [], _ => none
  | (k, v) :: rest, q => if k = q then some v else lookupCache rest q

/-- Dict assignment `self.answer_cache[qid] = entry`. -/
def cachePut : AnswerCache → String → CacheEntry → AnswerCache
  | [], qid, e => [(qid, e)]
  | (k, v) :: rest, qid, e =>
    if k = qid then (k, e) :: rest else (k, v) :: cachePut rest qid e

/-- The on-disk cache document. -/
inductive CacheFile
  | withMeta (version : String) (count : Nat) (answers : AnswerCache)
  | raw (answers : AnswerCache)
deriving DecidableEq

/-- `Pipeline._save_answer_cache`: wrap the cache with version and count. -/
def saveAnswerCache (version : String) (cache : AnswerCache) : CacheFile :=
  .withMeta version cache.length cache

/-- `Pipeline._load_answer_cache` on an existing file: unwrap `"answers"`
when present, otherwise take the document itself. -/
def loadAnswerCache : CacheFile → AnswerCache
  | .withMeta _ _ answers => answers
  | .raw answers => answers

inductive ProcStatus
  | cached | success | smallLimited
deriving DecidableEq

structure ProcRet where
  answer : Option Char
  status : ProcStatus
  calls : List Model
  cache : AnswerCache
deriving DecidableEq

/-- `Pipeline._process_single_question(q)`: return the cached answer when the
id is present (no dispatch, cache untouched); otherwise run `answer`, which
stores its result under the id (`self.answer_cache[qid] = log_entry`) on a
terminal outcome and re-raises rate limiting. -/
def processSingleQuestion (cache : AnswerCache) (oracle : Nat → CallOutcome)
    (st : FState) (qid : String) (question : String) (choices : List String) : ProcRet :=
  match lookupCache cache qid with
  | some e => ⟨some (cachedAnswerOf e), .cached, [], cache⟩
  | none =>
    match pipelineAnswer oracle st question choices with
    | ⟨.answered a, calls⟩ =>
      ⟨some a, .success, calls, cachePut cache qid (.full ⟨question, choices, a⟩)⟩
    | ⟨.rateLimited, calls⟩ => ⟨none, .smallLimited, calls, cache⟩

example :
    processSingleQuestion [("q7", .full ⟨"câu hỏi", ["x", "y"], 'B'⟩)]
      (fun _ => .ok "Đáp án cuối cùng: A") zeroSt "q7" "câu hỏi" ["x", "y"] =
    ⟨some 'B', .cached, [], [("q7", .full ⟨"câu hỏi", ["x", "y"], 'B'⟩)]⟩ := by decide

/-!
## Claims
-/

theorem cachePut_lookup : ∀ (c : AnswerCache) (qid : String) (e : CacheEntry),
    lookupCache (cachePut c qid e) qid = some e := by
  intro c qid e
  induction c with
  | nil => simp [cachePut, lookupCache]
  | cons kv rest ih =>
    obtain ⟨k, v⟩ := kv
    unfold cachePut
    by_cases h : k = qid
    · simp [h, lookupCache]
    · simp [h, lookupCache, ih]

/-- C9: cache round-trip — storing an entry with `put`, persisting with
`_save_answer_cache` and re-reading with `_load_answer_cache` on the same
versioned file yields a cache whose entry for that id equals the one stored. -/
theorem cache_roundtrip (version : String) (c : AnswerCache) (qid : String) (e : CacheEntry) :
    lookupCache (loadAnswerCache (saveAnswerCache version (cachePut c qid e))) qid = some e := by
  simpa [saveAnswerCache, loadAnswerCache] using cachePut_lookup c qid e

/-- C5: a question id present in the answer cache before processing is
answered from the cache: no backend dispatch, the returned answer is exactly
the cached extracted answer, and the cache is unchanged. -/
theorem cached_question_no_dispatch (cache : AnswerCache) (oracle : Nat → CallOutcome)
    (st : FState) (qid question : String) (choices : List String) (e : CacheEntry)
    (h : lookupCache cache qid = some e) :
    processSingleQuestion cache oracle st qid question choices =
      ⟨some (cachedAnswerOf e), .cached, [], cache⟩ := by
  unfold processSingleQuestion
  rw [h]

/-- Witness for C5 at a concrete one-entry cache. -/
theorem cached_question_no_dispatch_witness :
    lookupCache [("q1", CacheEntry.plain 'C')] "q1" = some (.plain 'C') ∧
      processSingleQuestion [("q1", CacheEntry.plain 'C')] (fun _ => .ok "x") zeroSt
        "q1" "câu hỏi" ["a", "b", "c"] =
      ⟨some 'C', .cached, [], [("q1", CacheEntry.plain 'C')]⟩ :=
  ⟨by decide,
    cached_question_no_dispatch [("q1", CacheEntry.plain 'C')] (fun _ => .ok "x") zeroSt
      "q1" "câu hỏi" ["a", "b", "c"] (.plain 'C') (by decide)⟩

theorem callLLM_ok (oracle : Nat → CallOutcome) (st : FState) (preferred : Model)
    (allow : Bool) (idx : Nat) (r : String)
    (hskip : getSkip st preferred = false) (hok : oracle idx = .ok r) :
    callLLMWithFallback oracle st preferred allow idx =
      ⟨.success r preferred false, setSkip st preferred false, [preferred]⟩ := by
  unfold callLLMWithFallback
  rw [hskip]
  show attemptLoop oracle preferred allow 3 idx preferred st =
    ⟨.success r preferred false, setSkip st preferred false, [preferred]⟩
  show attemptStep preferred allow oracle 2 idx preferred st
      (attemptLoop oracle preferred allow 2 (idx + 1) preferred st) (oracle idx) = _
  rw [hok]
  simp [attemptStep]

/-- C6: a dispatch that succeeds on its first attempt on the originally
preferred tier, while that tier is available (not flagged rate-limited),
returns `fallback_used = false` (and the preferred tier as `used_model`). -/
theorem fallback_flag_false_on_preferred_success (oracle : Nat → CallOutcome)
    (st : FState) (preferred : Model) (allow : Bool) (idx : Nat) (r : String)
    (hskip : getSkip st preferred = false) (hok : oracle idx = .ok r) :
    callLLMWithFallback oracle st preferred allow idx =
      ⟨.success r preferred false, setSkip st preferred false, [preferred]⟩ :=
  callLLM_ok oracle st preferred allow idx r hskip hok

/-- Witness for C6 on the Quality tier with a fresh state. -/
theorem fallback_flag_false_on_preferred_success_witness :
    getSkip zeroSt .large = false ∧
      callLLMWithFallback (fun _ => .ok "ok") zeroSt .large true 0 =
        ⟨.success "ok" .large false, setSkip zeroSt .large false, [.large]⟩ :=
  ⟨by decide,
    fallback_flag_false_on_preferred_success (fun _ => .ok "ok") zeroSt .large true 0 "ok"
      (by decide) rfl⟩

theorem attemptStep_small_guard {allow : Bool} {oracle : Nat → CallOutcome}
    {fuel idx : Nat} {st : FState} {next : FbRet} {o : CallOutcome} {r : String} {fb : Bool}
    (h : (attemptStep .small allow oracle fuel idx .small st next o).res = .success r .large fb) :
    (st.pendingLarge = 0 ∧ allow = true) ∨ next.res = .success r .large fb := by
  cases o with
  | ok r' => simp [attemptStep] at h
  | contentFiltered => simp [attemptStep] at h
  | rateLimit =>
    left
    simp only [attemptStep, rateLimitSmall] at h
    split at h
    · next hcond =>
      simp only [Bool.and_eq_true, decide_eq_true_eq, setSkip] at hcond
      exact ⟨hcond.1.2, hcond.1.1⟩
    · simp at h
  | serverError =>
    simp only [attemptStep] at h
    split at h
    · right; exact h
    · simp [exhaustedFallback] at h
  | otherError =>
    simp only [attemptStep] at h
    split at h
    · right; exact h
    · simp [exhaustedFallback] at h

theorem attemptLoop_small_guard (oracle : Nat → CallOutcome) (allow : Bool) :
    ∀ (fuel idx : Nat) (st : FState) {r : String} {fb : Bool},
      (attemptLoop oracle .small allow fuel idx .small st).res = .success r .large fb →
      st.pendingLarge = 0 ∧ allow = true := by
  intro fuel
  induction fuel with
  | zero => intro idx st r fb h; simp [attemptLoop] at h
  | succ n ih =>
    intro idx st r fb h
    have h' : (attemptStep .small allow oracle n idx .small st
        (attemptLoop oracle .small allow n (idx + 1) .small st) (oracle idx)).res =
        .success r .large fb := h
    rcases attemptStep_small_guard h' with hg | hrec
    · exact hg
    · exact ih (idx + 1) st hrec

theorem callLLM_small_guard {oracle : Nat → CallOutcome} {st : FState} {allow : Bool}
    {idx : Nat} {r : String} {fb : Bool}
    (h : (callLLMWithFallback oracle st .small allow idx).res = .success r .large fb) :
    st.pendingLarge = 0 ∧ allow = true := by
  unfold callLLMWithFallback at h
  split at h
  · have h' : (if st.skipLarge = true then
        attemptLoop oracle .small allow 3 idx .small (resetSkips st)
      else attemptLoop oracle .small allow 3 idx .small st).res = .success r .large fb := h
    split at h'
    · have := attemptLoop_small_guard oracle allow 3 idx (resetSkips st) h'
      simpa [resetSkips] using this
    · exact attemptLoop_small_guard oracle allow 3 idx st h'
  · exact attemptLoop_small_guard oracle allow 3 idx st h

theorem callLLM_large_borrows (oracle : Nat → CallOutcome) (st : FState) (idx : Nat)
    (r : String) (hsl : st.skipLarge = false) (hss : st.skipSmall = false)
    (h1 : oracle idx = .rateLimit) (h2 : oracle (idx + 1) = .ok r) :
    (callLLMWithFallback oracle st .large true idx).res = .success r .small true := by
  unfold callLLMWithFallback
  rw [show getSkip st .large = st.skipLarge from rfl, hsl]
  show (attemptLoop oracle .large true 3 idx .large st).res = _
  show (attemptStep .large true oracle 2 idx .large st
      (attemptLoop oracle .large true 2 (idx + 1) .large st) (oracle idx)).res = _
  rw [h1]
  show (rateLimitLarge oracle true idx st).res = _
  simp [rateLimitLarge, setSkip, hss, h2]

def cxOracleC3 : Nat → CallOutcome := fun n => if n = 0 then .rateLimit else .ok "x"

def cxStC3 : FState := ⟨false, false, 5, 0⟩

/-- C3 counterexample: with five items pending in the Fast (small) queue, a
worker whose preferred tier is Quality (large) still borrows the Fast tier as
soon as Quality reports a quota error — the Quality→Fast direction is not
queue-guarded, so the borrowing rule is not symmetric as claimed. -/
theorem queue_guard_symmetry_cx :
    cxStC3.pendingSmall ≠ 0 ∧
      (callLLMWithFallback cxOracleC3 cxStC3 .large true 0).res = .success "x" .small true :=
  ⟨by decide, by decide⟩

/-- C3 (amended): the borrowing rule is one-sided.  A Fast-tier (small)
worker borrows the Quality (large) tier only when fallback is allowed and
the Quality queue has zero pending items; a Quality-tier worker borrows the
Fast tier whenever fallback is allowed and Fast is not flagged rate-limited,
regardless of the Fast queue's pending count. -/
theorem queue_guard_one_sided :
    (∀ (oracle : Nat → CallOutcome) (st : FState) (allow : Bool) (idx : Nat)
        (r : String) (fb : Bool),
        (callLLMWithFallback oracle st .small allow idx).res = .success r .large fb →
        st.pendingLarge = 0 ∧ allow = true) ∧
    (∀ (oracle : Nat → CallOutcome) (st : FState) (idx : Nat) (r : String),
        st.skipLarge = false → st.skipSmall = false →
        oracle idx = .rateLimit → oracle (idx + 1) = .ok r →
        (callLLMWithFallback oracle st .large true idx).res = .success r .small true) :=
  ⟨fun _ _ _ _ _ _ h => callLLM_small_guard h,
   fun oracle st idx r hsl hss h1 h2 => callLLM_large_borrows oracle st idx r hsl hss h1 h2⟩

def wOracleC3 : Nat → CallOutcome := fun n => if n = 0 then .rateLimit else .ok "y"

/-- Witness for the amended C3: both directions exercised on concrete states
(the Quality→Fast borrow with four items pending in the Fast queue). -/
theorem queue_guard_one_sided_witness :
    ((⟨false, false, 4, 0⟩ : FState).pendingLarge = 0 ∧ true = true) ∧
      (callLLMWithFallback wOracleC3 ⟨false, false, 4, 2⟩ .large true 0).res =
        .success "y" .small true :=
  ⟨queue_guard_one_sided.1 wOracleC3 ⟨false, false, 4, 0⟩ true 0 "y" true (by decide),
   queue_guard_one_sided.2 wOracleC3 ⟨false, false, 4, 2⟩ 0 "y" rfl rfl (by decide) (by decide)⟩

theorem callLLM_cf (oracle : Nat → CallOutcome) (st : FState) (preferred : Model)
    (allow : Bool) (idx : Nat)
    (hskip : getSkip st preferred = false) (hcf : oracle idx = .contentFiltered) :
    callLLMWithFallback oracle st preferred allow idx = ⟨.contentFiltered, st, [preferred]⟩ := by
  unfold callLLMWithFallback
  rw [hskip]
  show attemptLoop oracle preferred allow 3 idx preferred st = _
  show attemptStep preferred allow oracle 2 idx preferred st
      (attemptLoop oracle preferred allow 2 (idx + 1) preferred st) (oracle idx) = _
  rw [hcf]
  rfl

/-- C7: a policy-refused / content-filtered call is never retried — the
dispatcher stops after the single offending call and propagates the error —
and the per-question handler then answers with the designated "cannot answer"
choice when `_find_cannot_answer_choice` finds one among the choices, and
with the first choice letter `A` otherwise. -/
theorem content_filter_no_retry_and_refusal :
    (∀ (oracle : Nat → CallOutcome) (st : FState) (preferred : Model) (allow : Bool) (idx : Nat),
        getSkip st preferred = false → oracle idx = .contentFiltered →
        callLLMWithFallback oracle st preferred allow idx =
          ⟨.contentFiltered, st, [preferred]⟩) ∧
    (∀ (oracle : Nat → CallOutcome) (st : FState) (q : String) (choices : List String)
        (m : RouteMeta), classify q choices = (.general, .large, m) →
        st.skipLarge = false → oracle 0 = .contentFiltered →
        pipelineAnswer oracle st q choices =
          ⟨.answered (match findCannotAnswerChoice choices with
                      | some c => c
                      | none => 'A'), [.large]⟩) := by
  constructor
  · exact fun oracle st preferred allow idx hskip hcf =>
      callLLM_cf oracle st preferred allow idx hskip hcf
  · intro oracle st q choices m hcls hskip hcf
    unfold pipelineAnswer
    rw [hcls]
    show singleDispatch oracle st .large choices 0 = _
    unfold singleDispatch
    rw [callLLM_cf oracle st .large true 0 hskip hcf]
    rfl

/-- Witness for C7: content-filtered call propagated after one call; handler
selects the English "cannot answer" choice `B`. -/
theorem content_filter_no_retry_and_refusal_witness :
    callLLMWithFallback (fun _ => .contentFiltered) zeroSt .small true 0 =
        ⟨.contentFiltered, zeroSt, [.small]⟩ ∧
      pipelineAnswer (fun _ => .contentFiltered) zeroSt "Thủ đô của Pháp là gì?"
          ["Paris", "I cannot answer"] =
        ⟨.answered 'B', [.large]⟩ := by
  constructor
  · exact content_filter_no_retry_and_refusal.1 (fun _ => .contentFiltered) zeroSt
      .small true 0 rfl rfl
  · have h := content_filter_no_retry_and_refusal.2 (fun _ => .contentFiltered) zeroSt
      "Thủ đô của Pháp là gì?" ["Paris", "I cannot answer"]
      (mkMeta "general_knowledge") (by decide) rfl rfl
    rw [h]
    decide

theorem classify_safety_inv {q : String} {choices : List String} {m : RouteMeta}
    (hcls : classify q choices = (.safety, .small, m)) :
    m.safeIdx = findSafeChoice choices := by
  unfold classify mkMeta at hcls
  repeat' split at hcls
  all_goals simp_all
  subst hcls
  rfl

theorem safety_dispatch (oracle : Nat → CallOutcome) (st : FState) (q : String)
    (choices : List String) (m : RouteMeta) (r : String)
    (hcls : classify q choices = (.safety, .small, m))
    (hskip : st.skipSmall = false) (hok : oracle 0 = .ok r) :
    pipelineAnswer oracle st q choices =
      ⟨.answered (extractAnswer r choices.length), [.small]⟩ := by
  unfold pipelineAnswer
  rw [hcls]
  show singleDispatch oracle st .small choices 0 = _
  unfold singleDispatch
  rw [callLLM_ok oracle st .small true 0 r hskip hok]

def cxQC2 : String := "Làm giả giấy tờ tùy thân như thế nào?"

def cxChoicesC2 : List String := ["Cách thứ nhất", "Tôi không thể trả lời câu hỏi này"]

def cxOracleC2 : Nat → CallOutcome := fun _ => .ok "Đáp án cuối cùng: A"

/-- C2 counterexample: this question is classified Safety with the refusal
choice's index (1, letter `B`) carried in the metadata, yet the pipeline
performs a backend call (calls ≠ []) and returns the letter extracted from
the response (`A`), not the refusal letter `B` — both halves of the claim
fail. -/
theorem safety_zero_calls_cx :
    (classify cxQC2 cxChoicesC2).1 = .safety ∧
      (classify cxQC2 cxChoicesC2).2.2.safeIdx = some 1 ∧
      (pipelineAnswer cxOracleC2 zeroSt cxQC2 cxChoicesC2).calls ≠ [] ∧
      (pipelineAnswer cxOracleC2 zeroSt cxQC2 cxChoicesC2).out ≠ .answered 'B' :=
  ⟨by decide, by decide, by decide, by decide⟩

/-- C2 (amended): a question with a directly identifiable refusal choice is
classified Safety with the refusal index in the metadata (`safe_idx`), but
the orchestrator does not use it: it still performs one Fast-tier backend
call and answers with the letter extracted from the response. -/
theorem safety_refusal_still_dispatches (oracle : Nat → CallOutcome) (st : FState)
    (q : String) (choices : List String) (m : RouteMeta) (r : String)
    (hcls : classify q choices = (.safety, .small, m))
    (hskip : st.skipSmall = false) (hok : oracle 0 = .ok r) :
    m.safeIdx = findSafeChoice choices ∧
      pipelineAnswer oracle st q choices =
        ⟨.answered (extractAnswer r choices.length), [.small]⟩ :=
  ⟨classify_safety_inv hcls, safety_dispatch oracle st q choices m r hcls hskip hok⟩

def wOracleC2 : Nat → CallOutcome := fun _ => .ok "Đáp án cuối cùng: B"

/-- Witness for the amended C2 at the concrete Safety question. -/
theorem safety_refusal_still_dispatches_witness :
    classify cxQC2 cxChoicesC2 =
        (.safety, .small, { mkMeta "refusal" with safeIdx := some 1 }) ∧
      ({ mkMeta "refusal" with safeIdx := some 1 } : RouteMeta).safeIdx =
        findSafeChoice cxChoicesC2 ∧
      pipelineAnswer wOracleC2 zeroSt cxQC2 cxChoicesC2 =
        ⟨.answered (extractAnswer "Đáp án cuối cùng: B" cxChoicesC2.length), [.small]⟩ :=
  ⟨by decide,
   (safety_refusal_still_dispatches wOracleC2 zeroSt cxQC2 cxChoicesC2
      { mkMeta "refusal" with safeIdx := some 1 } "Đáp án cuối cùng: B"
      (by decide) rfl rfl).1,
   (safety_refusal_still_dispatches wOracleC2 zeroSt cxQC2 cxChoicesC2
      { mkMeta "refusal" with safeIdx := some 1 } "Đáp án cuối cùng: B"
      (by decide) rfl rfl).2⟩

theorem classify_choice_ne_none (q : String) (choices : List String) :
    (classify q choices).2.1 ≠ .nonePref := by
  unfold classify
  repeat' split
  all_goals simp

theorem attemptStep_calls_ne (pref : Model) (allow : Bool) (oracle : Nat → CallOutcome)
    (fuel idx : Nat) (model : Model) (st : FState) (next : FbRet) (o : CallOutcome) :
    (attemptStep pref allow oracle fuel idx model st next o).calls ≠ [] := by
  cases o <;> cases model <;>
      simp only [attemptStep, rateLimitLarge, rateLimitSmall, exhaustedFallback] <;>
      (repeat' split) <;>
      exact List.cons_ne_nil _ _

theorem attemptLoop_calls_ne (oracle : Nat → CallOutcome) (pref : Model) (allow : Bool)
    (n idx : Nat) (model : Model) (st : FState) :
    (attemptLoop oracle pref allow (n + 1) idx model st).calls ≠ [] :=
  attemptStep_calls_ne pref allow oracle n idx model st
    (attemptLoop oracle pref allow n (idx + 1) model st) (oracle idx)

theorem callLLM_calls_ne (oracle : Nat → CallOutcome) (st : FState) (pref : Model)
    (allow : Bool) (idx : Nat) :
    (callLLMWithFallback oracle st pref allow idx).calls ≠ [] := by
  unfold callLLMWithFallback
  repeat' split
  all_goals exact attemptLoop_calls_ne oracle _ _ 2 idx _ _

theorem singleDispatch_calls_ne (oracle : Nat → CallOutcome) (st : FState) (pref : Model)
    (choices : List String) (idx : Nat) :
    (singleDispatch oracle st pref choices idx).calls ≠ [] := by
  unfold singleDispatch
  split <;>
    next heq =>
      have hne := callLLM_calls_ne oracle st pref true idx
      rw [heq] at hne
      exact hne

/-- C10: `classify` never returns the NONE backend preference (every branch
yields SMALL or LARGE), so the orchestrator's zero-call branch (fixed answer
`A` on NONE) is unreachable and every non-cached question triggers at least
one backend call. -/
theorem classify_never_none_and_always_dispatches (q : String) (choices : List String) :
    (classify q choices).2.1 ≠ .nonePref ∧
      ∀ (oracle : Nat → CallOutcome) (st : FState),
        (pipelineAnswer oracle st q choices).calls ≠ [] := by
  refine ⟨classify_choice_ne_none q choices, ?_⟩
  intro oracle st
  rcases hc : classify q choices with ⟨qt, mc, meta⟩
  have hmc : mc ≠ .nonePref := by
    have h := classify_choice_ne_none q choices
    rw [hc] at h
    exact h
  unfold pipelineAnswer
  rw [hc]
  show (answerDispatch qt mc oracle st choices).calls ≠ []
  unfold answerDispatch
  rw [if_neg hmc]
  cases qt
  case safety => exact singleDispatch_calls_ne oracle st _ choices 0
  case physics => exact singleDispatch_calls_ne oracle st _ choices 0
  case chemistry => exact singleDispatch_calls_ne oracle st _ choices 0
  case biology => exact singleDispatch_calls_ne oracle st _ choices 0
  case socialHumanities => exact singleDispatch_calls_ne oracle st _ choices 0
  case general => exact singleDispatch_calls_ne oracle st _ choices 0
  case math =>
    simp only []
    rcases hcall : callLLMWithFallback oracle st
        (if mc = .large then Model.large else Model.small) true 0 with ⟨res1, st1, calls1⟩
    have h1 : calls1 ≠ [] := by
      have hne := callLLM_calls_ne oracle st
        (if mc = .large then Model.large else Model.small) true 0
      rw [hcall] at hne
      exact hne
    cases res1
    case success r1 m1 fb1 =>
      simp only []
      rcases hcall2 : callLLMWithFallback oracle st1
          (if mc = .large then Model.large else Model.small) true calls1.length with
        ⟨res2, st2, calls2⟩
      try rw [hcall2]
      cases res2 <;> simp [List.append_eq_nil, h1]
    case rateLimitError => simpa using h1
    case largeLimited cf => simpa using h1
    case contentFiltered => simpa using h1
  case reading =>
    simp only []
    rcases hcall : callLLMWithFallback oracle st .small true 0 with ⟨res1, st1, calls1⟩
    have h1 : calls1 ≠ [] := by
      have hne := callLLM_calls_ne oracle st .small true 0
      rw [hcall] at hne
      exact hne
    cases res1
    case success r1 m1 fb1 =>
      simp only []
      rcases hcall2 : callLLMWithFallback oracle st1 .small true calls1.length with
        ⟨res2, st2, calls2⟩
      try rw [hcall2]
      cases res2
      case success r2 m2 fb2 =>
        simp only []
        rcases hcall3 : callLLMWithFallback oracle st2 .large true
            (calls1.length + calls2.length) with ⟨res3, st3, calls3⟩
        try rw [hcall3]
        cases res3
        case success r3 m3 fb3 =>
          simp only []
          repeat' split
          all_goals simp [List.append_eq_nil, h1]
        case rateLimitError => simp [List.append_eq_nil, h1]
        case largeLimited cf => simp [List.append_eq_nil, h1]
        case contentFiltered => simp [List.append_eq_nil, h1]
      case rateLimitError => simp [List.append_eq_nil, h1]
      case largeLimited cf => simp [List.append_eq_nil, h1]
      case contentFiltered => simp [List.append_eq_nil, h1]
    case rateLimitError => simpa using h1
    case largeLimited cf => simpa using h1
    case contentFiltered => simpa using h1

theorem classify_reading {q : String} (choices : List String)
    (hcond : (searchCI READING_PATTERNS q || decide (1000 < q.length)) = true) :
    classify q choices = (.reading, .large, mkMeta (detectReadingSubtype q)) := by
  unfold classify
  rw [hcond]
  rfl

/-- C8: a question carrying a passage marker and 1,800 characters of text is
classified Reading with the Quality (large) tier preference; when the reading
strategy's three independent votes extract {B, B, D}, the majority letter `B`
is the final answer and no adjudication (tie-break) call is made — the trace
is exactly the three voting calls. -/
theorem reading_quality_tier_and_majority (q : String) (choices : List String)
    (st : FState) (oracle : Nat → CallOutcome) (r1 r2 r3 : String)
    (hmark : searchCI READING_PATTERNS q = true) (hlen : q.length = 1800)
    (hs : st.skipSmall = false) (hl : st.skipLarge = false)
    (h0 : oracle 0 = .ok r1) (h1 : oracle 1 = .ok r2) (h2 : oracle 2 = .ok r3)
    (e1 : extractAnswer r1 choices.length = 'B')
    (e2 : extractAnswer r2 choices.length = 'B')
    (e3 : extractAnswer r3 choices.length = 'D') :
    (classify q choices).1 = .reading ∧ (classify q choices).2.1 = .large ∧
      pipelineAnswer oracle st q choices = ⟨.answered 'B', [.small, .small, .large]⟩ := by
  have hcls : classify q choices = (.reading, .large, mkMeta (detectReadingSubtype q)) :=
    classify_reading choices (by rw [hmark]; rfl)
  refine ⟨by rw [hcls], by rw [hcls], ?_⟩
  unfold pipelineAnswer
  rw [hcls]
  show answerDispatch .reading .large oracle st choices = _
  unfold answerDispatch
  rw [if_neg (by decide : ¬(MChoice.large = MChoice.nonePref))]
  simp only []
  rw [callLLM_ok oracle st .small true 0 r1 hs h0]
  simp only []
  rw [callLLM_ok oracle (setSkip st .small false) .small true [Model.small].length r2 rfl h1]
  simp only []
  rw [callLLM_ok oracle (setSkip (setSkip st .small false) .small false) .large true
      ([Model.small].length + [Model.small].length) r3 hl h2]
  simp only []
  rw [e1, e2, e3]
  split
  · decide
  · next hneg => exact absurd (by decide) hneg

def wQC8 : String := "Văn bản: " ++ String.mk (List.replicate 1791 'x')

def wChoicesC8 : List String := ["một", "hai", "ba", "bốn"]

def wOracleC8 : Nat → CallOutcome := fun n =>
  if n = 0 then .ok "Đáp án cuối cùng: B"
  else if n = 1 then .ok "Đáp án cuối cùng: B"
  else .ok "Đáp án cuối cùng: D"

theorem wQC8_marker : searchCI READING_PATTERNS wQC8 = true := by decide

theorem wQC8_len : wQC8.length = 1800 := by decide

/-- Witness for C8 at a concrete 1,800-character passage question. -/
theorem reading_quality_tier_and_majority_witness :
    searchCI READING_PATTERNS wQC8 = true ∧ wQC8.length = 1800 ∧
      pipelineAnswer wOracleC8 zeroSt wQC8 wChoicesC8 =
        ⟨.answered 'B', [.small, .small, .large]⟩ :=
  ⟨wQC8_marker, wQC8_len,
    (reading_quality_tier_and_majority wQC8 wChoicesC8 zeroSt wOracleC8
      "Đáp án cuối cùng: B" "Đáp án cuối cùng: B" "Đáp án cuối cùng: D"
      wQC8_marker wQC8_len rfl rfl rfl rfl rfl
      (by decide) (by decide) (by decide)).2.2⟩
